import Mathlib

/-!
Shallow embedding of scripts/ctd_hysteresis_test.py (rugliderqc).

Modelling conventions:
* numpy float values are rationals; a NaN measurement is modelled as `none`
  in a `List (Option ℚ)`; flag arrays (numpy float arrays) are `List ℚ`.
* timestamps are rationals measured in minutes, so the source comparison
  against `np.timedelta64(5, 'm')` becomes a comparison against `5`.
* a netcdf file on disk is `Option Dataset`: `none` means that
  `xr.open_dataset` raises OSError for that path.
* the shapely polygon-area computation is an external library call; the
  driver and pair processing are parametrised over an arbitrary
  `polyArea : List (ℚ × ℚ) → ℚ` standing for `MultiPolygon(...).area`.
* pandas `to_dataframe().merge(..., on='time')` of two series taken from
  the same dataset (identical time index, unique times) is positional,
  modelled as `List.zip`; the two series always have equal length.
* Python locals that may be unbound (`f2skip`, `ds2`) are `Option`-valued
  in the driver state; an uncaught exception (UnboundLocalError on `ds2`,
  KeyError on `config_dict`, IndexError on an empty valid-pressure index)
  sets `crashed := true`, after which every remaining step is a no-op,
  matching the whole script aborting.
-/

namespace CtdHysteresis

/-- QARTOD flag value GOOD = 1 (ioos_qc qartod.QartodFlags). -/
def GOOD : ℚ := 1

/-- QARTOD flag value UNKNOWN = 2, the value every flag array starts from. -/
def UNKNOWN : ℚ := 2

/-- QARTOD flag value SUSPECT = 3. -/
def SUSPECT : ℚ := 3

/-- QARTOD flag value FAIL = 4. -/
def FAIL : ℚ := 4

/-- QARTOD flag value MISSING = 9, set where the measurement is NaN. -/
def MISSING : ℚ := 9

/-- One measurement variable of a dataset: its sample values (none = NaN)
and the upstream qartod flag arrays whose names contain the variable name. -/
structure VarData where
  vals : List (Option ℚ)
  qartod : List (List ℚ)
deriving DecidableEq

/-- One netcdf profile dataset: time, pressure and the measurement
variables keyed by name (conductivity, temperature). -/
structure Dataset where
  time : List ℚ
  pressure : List (Option ℚ)
  vars : List (String × VarData)
deriving DecidableEq

/-- Whether `ds[testvar]` succeeds (the KeyError probe at source line 205). -/
def hasVar (ds : Dataset) (tv : String) : Bool :=
  (ds.vars.lookup tv).isSome

/-- The data stored for a variable name (meaningful when `hasVar` holds). -/
def varData (ds : Dataset) (tv : String) : VarData :=
  (ds.vars.lookup tv).getD ⟨[], []⟩

/-- Source `apply_qartod_qc` (lines 24-30): copy of the variable with every
sample whose upstream qartod flag equals 3 or 4 replaced by NaN. -/
def apply_qartod_qc (vals : List (Option ℚ)) (qflags : List (List ℚ)) :
    List (Option ℚ) :=
  qflags.foldl
    (fun acc qv => List.zipWith (fun v q => if q = 3 ∨ q = 4 then none else v) acc qv)
    vals

/-- Masked copy of a dataset variable, `apply_qartod_qc(ds, testvar)`. -/
def maskedData (ds : Dataset) (tv : String) : List (Option ℚ) :=
  apply_qartod_qc (varData ds tv).vals (varData ds tv).qartod

/-- Indices where a variable is not NaN: `non_nan_i` of source
`initialize_flags` (lines 33-48). -/
def nonNanIdx (vals : List (Option ℚ)) : List ℕ :=
  (List.range vals.length).filter (fun i => (vals.getD i none).isSome)

/-- The flag array built by source `initialize_flags`: every sample starts
UNKNOWN (2) and NaN samples are set to MISSING (9). -/
def initFlags (vals : List (Option ℚ)) : List ℚ :=
  vals.map (fun v => if v.isSome then UNKNOWN else MISSING)

/-- The pressure values at the non-NaN pressure indices,
`ds.pressure.values[pressure_idx]`. -/
def validPressures (pressure : List (Option ℚ)) : List ℚ :=
  pressure.filterMap id

/-- Source line 227: the primary profile is treated as an up-cast exactly
when its first valid pressure is strictly greater than its last. -/
def firstProfileIsUp (pressure : List (Option ℚ)) : Bool :=
  decide ((validPressures pressure).headD 0 > (validPressures pressure).getLastD 0)

/-- Source line 264: the lookahead profile is treated as a down-cast exactly
when its first valid pressure is strictly less than its last. -/
def secondProfileIsDown (pressure : List (Option ℚ)) : Bool :=
  decide ((validPressures pressure).headD 0 < (validPressures pressure).getLastD 0)

/-- Number of non-NaN samples, `np.sum(~np.isnan(...))`. -/
def countSome (l : List (Option ℚ)) : ℕ :=
  (l.filterMap id).length

/-- Rows kept by `df.dropna(subset=['pressure', testvar])`: only rows where
both the measurement and the pressure are present. -/
def dropnaRows (l : List (Option ℚ × Option ℚ)) : List (ℚ × ℚ) :=
  l.filterMap (fun r =>
    match r.1, r.2 with
    | some m, some p => some (m, p)
    | _, _ => none)

/-- The combined down-then-up table of (measurement, pressure) rows built at
source lines 284-287: the masked primary series merged with its pressure,
appended with the masked lookahead series merged with its pressure, NaN rows
dropped. Column order follows `df.values`: measurement first. -/
def pairTable (ds ds2 : Dataset) (tv : String) : List (ℚ × ℚ) :=
  dropnaRows ((maskedData ds tv).zip ds.pressure ++ (maskedData ds2 tv).zip ds2.pressure)

/-- Maximum of a list of rationals (`np.nanmax` of a NaN-free array). -/
def listMax (l : List ℚ) : ℚ :=
  l.foldl max (l.headD 0)

/-- Minimum of a list of rationals (`np.nanmin` of a NaN-free array). -/
def listMin (l : List ℚ) : ℚ :=
  l.foldl min (l.headD 0)

/-- Source lines 290-291: `pressure_copy`, the copy of the combined table's
pressure column with negative values set to 0. Only this copy is clamped;
the table itself is left untouched. -/
def clampPress (rows : List (ℚ × ℚ)) : List ℚ :=
  rows.map (fun r => if r.2 < 0 then 0 else r.2)

/-- Source line 292: the pressure range of the pair, computed from the
clamped pressure copy. -/
def pressureRange (rows : List (ℚ × ℚ)) : ℚ :=
  listMax (clampPress rows) - listMin (clampPress rows)

/-- Source line 293: the data range of the pair, computed from the
(unclamped) measurement column of the combined table. -/
def dataRange (rows : List (ℚ × ℚ)) : ℚ :=
  listMax (rows.map Prod.fst) - listMin (rows.map Prod.fst)

/-- Source lines 301-302: `polygon_points = df.values.tolist()` followed by
appending the first point again to close the polygon. The rows used here
are the unclamped table rows. -/
def polygonPoints (rows : List (ℚ × ℚ)) : List (ℚ × ℚ) :=
  rows ++ [rows.headD (0, 0)]

/-- Per-sensor thresholds from the deployment QC configuration. -/
structure Thresholds where
  test_threshold : ℚ
  suspect_threshold : ℚ
  fail_threshold : ℚ
deriving DecidableEq

/-- Source lines 313-322: severity classification of a validated pair from
the normalized area and the data range. -/
def classifyFlag (th : Thresholds) (area drange : ℚ) : ℚ :=
  if area > drange * th.fail_threshold then FAIL
  else if area > drange * th.suspect_threshold then SUSPECT
  else GOOD

/-- Source lines 323-324 and 329-330: `flag_vals[data_idx] = flag`, writing
the classification into the flag array at the listed indices. -/
def assignFlag (flags : List ℚ) (idx : List ℕ) (f : ℚ) : List ℚ :=
  (List.range flags.length).map (fun j => if j ∈ idx then f else flags.getD j 0)

/-- Result of processing a confirmed down/up adjacent pair (source lines
270-352): the two flag arrays to persist, whether the shapely polygon was
constructed, and the point list handed to the geometry library (empty when
no polygon was built). -/
structure PairResult where
  flags1 : List ℚ
  flags2 : List ℚ
  polygonInvoked : Bool
  polyPts : List (ℚ × ℚ)
deriving DecidableEq

/-- Source lines 270-352: the body run once the primary is classified down
and the lookahead up. Checks the 5-minute gap, the post-masking data, the
pressure range and the data range, and either classifies the pair or leaves
the initial flags. Every branch of this region also increments `f2skip`;
the driver does that increment at its call site. -/
def downUpPair (polyArea : List (ℚ × ℚ) → ℚ) (th : Thresholds)
    (ds ds2 : Dataset) (tv : String) : PairResult :=
  let v1 := (varData ds tv).vals
  let v2 := (varData ds2 tv).vals
  let flag_vals := initFlags v1
  let flag_vals2 := initFlags v2
  if ds2.time.headD 0 - ds.time.getLastD 0 < 5 then
    if 0 < countSome (maskedData ds tv) ∧ 0 < countSome (maskedData ds2 tv) then
      let rows := pairTable ds ds2 tv
      if pressureRange rows > 5 then
        if dataRange rows > th.test_threshold then
          let pts := polygonPoints rows
          let area := polyArea pts / pressureRange rows
          let flag := classifyFlag th area (dataRange rows)
          ⟨assignFlag flag_vals (nonNanIdx v1) flag,
           assignFlag flag_vals2 (nonNanIdx v2) flag, true, pts⟩
        else
          ⟨assignFlag flag_vals (nonNanIdx v1) GOOD,
           assignFlag flag_vals2 (nonNanIdx v2) GOOD, false, []⟩
      else ⟨flag_vals, flag_vals2, false, []⟩
    else ⟨flag_vals, flag_vals2, false, []⟩
  else ⟨flag_vals, flag_vals2, false, []⟩

/-- The per-deployment, per-sensor threshold configuration,
`config_dict` keyed by strings of the form `<sensor>_hysteresis_test`. -/
abbrev Config := List (String × Thresholds)

/-- One `save_ds` call: target file index, variable name, the measurement
values of the dataset object being written, and the flag array written. -/
structure SaveRec where
  fileIdx : ℕ
  var : String
  vals : List (Option ℚ)
  flags : List ℚ
deriving DecidableEq

/-- Driver state threaded through the file loop of `main` (lines 119-352).
`skip` and the loop index give the effective primary index; `f2skip = none`
models the Python local being unbound; `ds2mem` is the last successful
binding of the Python local `ds2`; `crashed` records an uncaught
exception, which aborts the whole run. -/
structure DriverState where
  skip : ℕ
  f2skip : Option ℕ
  ds2mem : Option Dataset
  status : ℕ
  saved : List SaveRec
  depsAttempted : ℕ
  crashed : Bool
deriving DecidableEq

/-- Source lines 250-352: processing after the lookahead read attempt. The
argument state already reflects the read attempt; `ds2mem = none` means the
Python local `ds2` was never bound, so `ds2[testvar]` raises an uncaught
UnboundLocalError. -/
def lookaheadStep (polyArea : List (ℚ × ℚ) → ℚ) (th : Thresholds) (idx : ℕ)
    (ds : Dataset) (tv : String) (flag_vals : List ℚ) (st : DriverState) :
    DriverState :=
  match st.ds2mem with
  | none => { st with crashed := true }
  | some ds2 =>
    if hasVar ds2 tv then
      if validPressures ds2.pressure = [] then { st with crashed := true }
      else if secondProfileIsDown ds2.pressure then
        { st with saved := st.saved ++ [⟨idx, tv, (varData ds tv).vals, flag_vals⟩] }
      else
        let pr := downUpPair polyArea th ds ds2 tv
        { st with
          saved := st.saved ++
            [⟨idx, tv, (varData ds tv).vals, pr.flags1⟩,
             ⟨idx + 1, tv, (varData ds2 tv).vals, pr.flags2⟩],
          f2skip := some (st.f2skip.getD 0 + 1) }
    else
      { st with status := 1,
                saved := st.saved ++ [⟨idx, tv, (varData ds tv).vals, flag_vals⟩] }

/-- Source lines 200-352: the body of the test-variable loop for the primary
dataset `ds` at effective index `idx`. The config lookup at line 202 is an
unguarded dictionary subscript, so a missing key is an uncaught KeyError. -/
def testvarStep (polyArea : List (ℚ × ℚ) → ℚ) (cfg : Config)
    (files : List (Option Dataset)) (idx : ℕ) (ds : Dataset)
    (st : DriverState) (tv : String) : DriverState :=
  if st.crashed then st
  else
    match cfg.lookup (tv ++ "_hysteresis_test") with
    | none => { st with crashed := true }
    | some th =>
      if hasVar ds tv then
        let v1 := (varData ds tv).vals
        let flag_vals := initFlags v1
        if nonNanIdx v1 = [] then { st with status := 1 }
        else if validPressures ds.pressure = [] then { st with crashed := true }
        else if firstProfileIsUp ds.pressure then
          { st with saved := st.saved ++ [⟨idx, tv, v1, flag_vals⟩] }
        else if idx + 1 < files.length then
          match files.getD (idx + 1) none with
          | some d2 =>
            lookaheadStep polyArea th idx ds tv flag_vals { st with ds2mem := some d2 }
          | none =>
            lookaheadStep polyArea th idx ds tv flag_vals
              { st with status := 1, f2skip := some (st.f2skip.getD 0 + 1) }
        else
          { st with saved := st.saved ++ [⟨idx, tv, v1, flag_vals⟩] }
      else { st with status := 1 }

/-- Source lines 177-197 plus the test-variable loop: one iteration of
`for i, f in enumerate(ncfiles)`. The unbound-`f2skip` probe, the skip
adjustment, the IndexError guard and the OSError guard on the primary read
are all here; note that a failed primary read leaves `f2skip` untouched. -/
def fileStep (polyArea : List (ℚ × ℚ) → ℚ) (cfg : Config) (tvs : List String)
    (files : List (Option Dataset)) (st : DriverState) (i : ℕ) : DriverState :=
  if st.crashed then st
  else
    let sk :=
      match st.f2skip with
      | some n => if 0 < n then st.skip + 1 else st.skip
      | none => st.skip
    let idx := i + sk
    let st1 := { st with skip := sk }
    if idx < files.length then
      match files.getD idx none with
      | none => { st1 with status := 1 }
      | some ds =>
        tvs.foldl (testvarStep polyArea cfg files idx ds) { st1 with f2skip := some 0 }
    else st1

/-- Initial driver state at the start of `main`. -/
def startState : DriverState :=
  ⟨0, none, none, 0, [], 0, false⟩

/-- The file loop of one deployment, from an arbitrary inherited state. -/
def runFilesFrom (polyArea : List (ℚ × ℚ) → ℚ) (cfg : Config)
    (tvs : List String) (files : List (Option Dataset)) (st : DriverState) :
    DriverState :=
  (List.range files.length).foldl (fileStep polyArea cfg tvs files) st

/-- One whole run of the sequential driver over one sorted file list. -/
def runFiles (polyArea : List (ℚ × ℚ) → ℚ) (cfg : Config)
    (tvs : List String) (files : List (Option Dataset)) : DriverState :=
  runFilesFrom polyArea cfg tvs files startState

/-- One deployment as the driver sees it: the resolved threshold
configuration (`none` when neither the deployment nor the default config
file exists, source lines 145-152) and the sorted file list. -/
structure DeploymentInput where
  cfg : Option Config
  files : List (Option Dataset)
deriving DecidableEq

/-- Source lines 119-163 for one deployment: missing configuration or an
empty file list set a non-zero status and continue; otherwise the file loop
runs with `skip` reset to 0. `f2skip` and `ds2mem` deliberately carry over
from the previous deployment, as the Python locals do. -/
def deploymentStep (polyArea : List (ℚ × ℚ) → ℚ) (tvs : List String)
    (st : DriverState) (dep : DeploymentInput) : DriverState :=
  if st.crashed then st
  else
    let st1 := { st with depsAttempted := st.depsAttempted + 1 }
    match dep.cfg with
    | none => { st1 with status := 1 }
    | some cfg =>
      if dep.files.length = 0 then { st1 with status := 1 }
      else runFilesFrom polyArea cfg tvs dep.files { st1 with skip := 0 }

/-- A whole invocation of `main` over the deployment list. -/
def runDeployments (polyArea : List (ℚ × ℚ) → ℚ) (tvs : List String)
    (deps : List DeploymentInput) : DriverState :=
  deps.foldl (deploymentStep polyArea tvs) startState

/-- A flag array is consistent with a value list when it reads MISSING at
every in-bounds NaN index. -/
def flagsOK (vals : List (Option ℚ)) (flags : List ℚ) : Prop :=
  ∀ i, i < vals.length → vals.getD i none = none → flags.getD i 0 = MISSING

/-- Every record saved so far is consistent. -/
def savedOK (st : DriverState) : Prop :=
  ∀ r ∈ st.saved, flagsOK r.vals r.flags

/-- Second definition for the refinement comparison in the clamping claim,
following the spec's words (section 4.4, step 2 before step 5): the combined
table itself with negative pressures clamped to 0, which is what the polygon
would be built from if the claim held. -/
def specClampRows (rows : List (ℚ × ℚ)) : List (ℚ × ℚ) :=
  rows.map (fun r => (r.1, if r.2 < 0 then 0 else r.2))

/-! Concrete inputs used by the closed evaluation theorems, the
counterexamples and the witnesses. -/

/-- A dataset carrying the same sample values for both test variables. -/
def twoVarDataset (t : List ℚ) (p : List (Option ℚ)) (v : List (Option ℚ)) : Dataset :=
  ⟨t, p, [("conductivity", ⟨v, []⟩), ("temperature", ⟨v, []⟩)]⟩

/-- A concrete stand-in for the geometry library returning area 0. -/
def zeroArea : List (ℚ × ℚ) → ℚ := fun _ => 0

/-- A concrete stand-in for the geometry library returning area 1000. -/
def bigArea : List (ℚ × ℚ) → ℚ := fun _ => 1000

/-- The two sensors the source iterates over, `test_varnames`. -/
def testVarnames : List String := ["conductivity", "temperature"]

/-- A complete threshold configuration for both sensors. -/
def sampleCfg : Config :=
  [("conductivity_hysteresis_test", ⟨100, 2, 5⟩),
   ("temperature_hysteresis_test", ⟨100, 2, 5⟩)]

/-- A configuration whose conductivity entry is missing. -/
def badCfg : Config :=
  [("temperature_hysteresis_test", ⟨100, 2, 5⟩)]

/-- A readable down-cast profile. -/
def downA : Dataset := twoVarDataset [0, 1] [some 1, some 10] [some 1, some 2]

/-- A readable up-cast profile starting 9 minutes after downA ends. -/
def upB : Dataset := twoVarDataset [10, 11] [some 10, some 1] [some 5, some 6]

/-- A second readable down-cast profile. -/
def downC : Dataset := twoVarDataset [20, 21] [some 1, some 10] [some 1, some 2]

/-- A late readable up-cast profile. -/
def upE : Dataset := twoVarDataset [40, 41] [some 10, some 1] [some 1, some 2]

/-- A down-cast with a negative pressure sample. -/
def negDown : Dataset := twoVarDataset [0, 1] [some (-1), some 10] [some 0, some 4]

/-- The matching up-cast for negDown, 1 minute later. -/
def negUp : Dataset := twoVarDataset [2, 3] [some 10, some 0] [some 4, some 0]

/-- A down-cast spanning only 2 pressure units. -/
def shallowDown : Dataset := twoVarDataset [0, 1] [some 1, some 3] [some 1, some 2]

/-- The matching shallow up-cast, 1 minute later. -/
def shallowUp : Dataset := twoVarDataset [2, 3] [some 3, some 1] [some 2, some 1]

/-- A deep down-cast whose data range stays below the test threshold. -/
def flatDown : Dataset := twoVarDataset [0, 1] [some 1, some 10] [some 1, some 2]

/-- The matching up-cast for flatDown, 1 minute later. -/
def flatUp : Dataset := twoVarDataset [2, 3] [some 10, some 1] [some 2, some 1]

/-- An up-cast profile containing one NaN conductivity sample. -/
def nanUp : Dataset := twoVarDataset [0, 1] [some 5, some 1] [some 1, none]

/-- The file list of the consumed-after-failure scenario: a consumed pair,
then a down-cast whose lookahead file is unreadable, then a final up-cast. -/
def c3files : List (Option Dataset) :=
  [some downA, some upB, some downC, none, some upE]

/-! Pointwise lemmas about the flag arrays. -/

/-- Reading a mapped range at an in-bounds index gives the mapped value. -/
theorem getD_map_range {α : Type} (g : ℕ → α) (n i : ℕ) (d : α) (hi : i < n) :
    ((List.range n).map g).getD i d = g i := by
  rw [List.getD_eq_getElem?_getD, List.getElem?_map, List.getElem?_range hi]
  rfl

/-- Reading a mapped list at an in-bounds index gives the mapped element. -/
theorem getD_map {α β : Type} (g : α → β) (l : List α) (i : ℕ) (d : β) (d' : α)
    (hi : i < l.length) :
    (l.map g).getD i d = g (l.getD i d') := by
  rw [List.getD_eq_getElem?_getD, List.getElem?_map, List.getD_eq_getElem?_getD]
  cases h : l[i]? with
  | none => exact absurd (List.getElem?_eq_none_iff.mp h) (Nat.not_le.mpr hi)
  | some a => rfl

/-- The initial flag array has the length of the variable. -/
theorem initFlags_length (vals : List (Option ℚ)) :
    (initFlags vals).length = vals.length := by
  simp [initFlags]

/-- The initial flag array is UNKNOWN at present samples and MISSING at NaN
samples. -/
theorem initFlags_getD (vals : List (Option ℚ)) (i : ℕ) (hi : i < vals.length) :
    (initFlags vals).getD i 0 =
      if (vals.getD i none).isSome then UNKNOWN else MISSING := by
  unfold initFlags
  rw [getD_map _ _ _ _ none hi]

/-- Membership in the valid-data index list. -/
theorem mem_nonNanIdx (vals : List (Option ℚ)) (i : ℕ) :
    i ∈ nonNanIdx vals ↔ i < vals.length ∧ (vals.getD i none).isSome := by
  simp [nonNanIdx, List.mem_filter, List.mem_range]

/-- The assigned flag array has the length of the array it overwrites. -/
theorem assignFlag_length (flags : List ℚ) (idx : List ℕ) (f : ℚ) :
    (assignFlag flags idx f).length = flags.length := by
  simp [assignFlag]

/-- Writing flag `f` at the valid-data indices of `vals` into the initial
flag array yields `f` at present samples and MISSING at NaN samples. -/
theorem assign_init_getD (vals : List (Option ℚ)) (f : ℚ) (i : ℕ)
    (hi : i < vals.length) :
    (assignFlag (initFlags vals) (nonNanIdx vals) f).getD i 0 =
      if (vals.getD i none).isSome then f else MISSING := by
  unfold assignFlag
  rw [initFlags_length, getD_map_range _ _ _ _ hi]
  by_cases hs : (vals.getD i none).isSome
  · rw [if_pos ((mem_nonNanIdx vals i).mpr ⟨hi, hs⟩), if_pos hs]
  · rw [if_neg (fun hm => hs ((mem_nonNanIdx vals i).mp hm).2), if_neg hs,
      initFlags_getD vals i hi, if_neg hs]

/-- The initial flag array is consistent. -/
theorem flagsOK_init (vals : List (Option ℚ)) : flagsOK vals (initFlags vals) := by
  intro i hi hnan
  rw [initFlags_getD vals i hi, hnan]
  rfl

/-- Writing any flag at the valid-data indices preserves consistency. -/
theorem flagsOK_assign (vals : List (Option ℚ)) (f : ℚ) :
    flagsOK vals (assignFlag (initFlags vals) (nonNanIdx vals) f) := by
  intro i hi hnan
  rw [assign_init_getD vals f i hi, hnan]
  rfl

/-- Both flag arrays produced by the down/up pair processing are consistent
with the measurement values of the dataset they belong to. -/
theorem downUpPair_flagsOK (polyArea : List (ℚ × ℚ) → ℚ) (th : Thresholds)
    (ds ds2 : Dataset) (tv : String) :
    flagsOK (varData ds tv).vals (downUpPair polyArea th ds ds2 tv).flags1 ∧
      flagsOK (varData ds2 tv).vals (downUpPair polyArea th ds ds2 tv).flags2 := by
  unfold downUpPair
  dsimp only
  split_ifs <;>
    exact ⟨by first | exact flagsOK_assign _ _ | exact flagsOK_init _,
           by first | exact flagsOK_assign _ _ | exact flagsOK_init _⟩

/-- A fold preserves any invariant its step preserves. -/
theorem foldl_pres {α β : Type} (P : α → Prop) (f : α → β → α)
    (hf : ∀ a b, P a → P (f a b)) :
    ∀ (l : List β) (a : α), P a → P (l.foldl f a) := by
  intro l
  induction l with
  | nil => intro a ha; exact ha
  | cons b t ih => intro a ha; exact ih (f a b) (hf a b ha)

/-- Appending consistent records preserves the saved invariant. -/
theorem savedOK_append (st : DriverState) (l : List SaveRec)
    (hst : savedOK st) (hl : ∀ r ∈ l, flagsOK r.vals r.flags) :
    ∀ r ∈ st.saved ++ l, flagsOK r.vals r.flags := by
  intro r hr
  rcases List.mem_append.mp hr with h | h
  · exact hst r h
  · exact hl r h

/-- The lookahead-processing step only saves consistent records. -/
theorem savedOK_lookaheadStep (polyArea : List (ℚ × ℚ) → ℚ) (th : Thresholds)
    (idx : ℕ) (ds : Dataset) (tv : String) (flag_vals : List ℚ)
    (st : DriverState) (hst : savedOK st)
    (hfv : flagsOK (varData ds tv).vals flag_vals) :
    savedOK (lookaheadStep polyArea th idx ds tv flag_vals st) := by
  unfold lookaheadStep
  dsimp only
  split
  · exact hst
  · split_ifs
    · exact hst
    · exact savedOK_append st _ hst (by
        intro r hr
        rw [List.mem_singleton] at hr
        subst hr
        exact hfv)
    · exact savedOK_append st _ hst (by
        intro r hr
        rcases List.mem_cons.mp hr with h | h
        · subst h; exact (downUpPair_flagsOK polyArea th ds _ tv).1
        · rw [List.mem_singleton] at h
          subst h; exact (downUpPair_flagsOK polyArea th ds _ tv).2)
    · exact savedOK_append st _ hst (by
        intro r hr
        rw [List.mem_singleton] at hr
        subst hr
        exact hfv)

/-- The test-variable step only saves consistent records. -/
theorem savedOK_testvarStep (polyArea : List (ℚ × ℚ) → ℚ) (cfg : Config)
    (files : List (Option Dataset)) (idx : ℕ) (ds : Dataset)
    (st : DriverState) (tv : String) (hst : savedOK st) :
    savedOK (testvarStep polyArea cfg files idx ds st tv) := by
  unfold testvarStep
  dsimp only
  split
  · exact hst
  · split
    · exact hst
    · split_ifs
      · exact hst
      · exact hst
      · exact savedOK_append st _ hst (by
          intro r hr
          rw [List.mem_singleton] at hr
          subst hr
          exact flagsOK_init _)
      · split
        · exact savedOK_lookaheadStep _ _ _ _ _ _ _ hst (flagsOK_init _)
        · exact savedOK_lookaheadStep _ _ _ _ _ _ _ hst (flagsOK_init _)
      · exact savedOK_append st _ hst (by
          intro r hr
          rw [List.mem_singleton] at hr
          subst hr
          exact flagsOK_init _)
      · exact hst

/-- One file-loop iteration only saves consistent records. -/
theorem savedOK_fileStep (polyArea : List (ℚ × ℚ) → ℚ) (cfg : Config)
    (tvs : List String) (files : List (Option Dataset)) (st : DriverState)
    (i : ℕ) (hst : savedOK st) :
    savedOK (fileStep polyArea cfg tvs files st i) := by
  unfold fileStep
  dsimp only
  split
  · exact hst
  · split
    · split
      · exact hst
      · exact foldl_pres savedOK _
          (fun a b ha => savedOK_testvarStep polyArea cfg files _ _ a b ha) tvs _ hst
    · exact hst

/-- The file loop only saves consistent records. -/
theorem savedOK_runFilesFrom (polyArea : List (ℚ × ℚ) → ℚ) (cfg : Config)
    (tvs : List String) (files : List (Option Dataset)) (st : DriverState)
    (hst : savedOK st) :
    savedOK (runFilesFrom polyArea cfg tvs files st) :=
  foldl_pres savedOK _
    (fun a b ha => savedOK_fileStep polyArea cfg tvs files a b ha)
    (List.range files.length) st hst

/-- One deployment step only saves consistent records. -/
theorem savedOK_deploymentStep (polyArea : List (ℚ × ℚ) → ℚ)
    (tvs : List String) (st : DriverState) (dep : DeploymentInput)
    (hst : savedOK st) :
    savedOK (deploymentStep polyArea tvs st dep) := by
  unfold deploymentStep
  split
  · exact hst
  · split
    · exact hst
    · split
      · exact hst
      · exact savedOK_runFilesFrom _ _ _ _ _ hst

/-- Every record persisted over a whole run is consistent. -/
theorem savedOK_runDeployments (polyArea : List (ℚ × ℚ) → ℚ)
    (tvs : List String) (deps : List DeploymentInput) :
    savedOK (runDeployments polyArea tvs deps) :=
  foldl_pres savedOK _
    (fun a b ha => savedOK_deploymentStep polyArea tvs a b ha)
    deps startState (fun _ hr => nomatch hr)

/-! Branch reductions of the pair processing under the guard conditions. -/

/-- Under a valid pair with deep pressure range and large data range, the
pair processing classifies via the polygon area. -/
theorem downUpPair_eq_classified (polyArea : List (ℚ × ℚ) → ℚ) (th : Thresholds)
    (ds ds2 : Dataset) (tv : String)
    (hgap : ds2.time.headD 0 - ds.time.getLastD 0 < 5)
    (hdata : 0 < countSome (maskedData ds tv) ∧ 0 < countSome (maskedData ds2 tv))
    (hpr : pressureRange (pairTable ds ds2 tv) > 5)
    (hdr : dataRange (pairTable ds ds2 tv) > th.test_threshold) :
    downUpPair polyArea th ds ds2 tv =
      ⟨assignFlag (initFlags (varData ds tv).vals) (nonNanIdx (varData ds tv).vals)
          (classifyFlag th
            (polyArea (polygonPoints (pairTable ds ds2 tv)) / pressureRange (pairTable ds ds2 tv))
            (dataRange (pairTable ds ds2 tv))),
       assignFlag (initFlags (varData ds2 tv).vals) (nonNanIdx (varData ds2 tv).vals)
          (classifyFlag th
            (polyArea (polygonPoints (pairTable ds ds2 tv)) / pressureRange (pairTable ds ds2 tv))
            (dataRange (pairTable ds ds2 tv))),
       true, polygonPoints (pairTable ds ds2 tv)⟩ := by
  unfold downUpPair
  dsimp only
  rw [if_pos hgap, if_pos hdata, if_pos hpr, if_pos hdr]

/-- Under a valid pair with deep pressure range but small data range, the
pair processing flags both profiles GOOD without geometry. -/
theorem downUpPair_eq_autoGood (polyArea : List (ℚ × ℚ) → ℚ) (th : Thresholds)
    (ds ds2 : Dataset) (tv : String)
    (hgap : ds2.time.headD 0 - ds.time.getLastD 0 < 5)
    (hdata : 0 < countSome (maskedData ds tv) ∧ 0 < countSome (maskedData ds2 tv))
    (hpr : pressureRange (pairTable ds ds2 tv) > 5)
    (hdr : ¬ dataRange (pairTable ds ds2 tv) > th.test_threshold) :
    downUpPair polyArea th ds ds2 tv =
      ⟨assignFlag (initFlags (varData ds tv).vals) (nonNanIdx (varData ds tv).vals) GOOD,
       assignFlag (initFlags (varData ds2 tv).vals) (nonNanIdx (varData ds2 tv).vals) GOOD,
       false, []⟩ := by
  unfold downUpPair
  dsimp only
  rw [if_pos hgap, if_pos hdata, if_pos hpr, if_neg hdr]

/-- Under a valid pair with shallow pressure range, the pair processing
leaves the initial flag arrays untouched and builds no polygon. -/
theorem downUpPair_eq_shallow (polyArea : List (ℚ × ℚ) → ℚ) (th : Thresholds)
    (ds ds2 : Dataset) (tv : String)
    (hgap : ds2.time.headD 0 - ds.time.getLastD 0 < 5)
    (hdata : 0 < countSome (maskedData ds tv) ∧ 0 < countSome (maskedData ds2 tv))
    (hpr : ¬ pressureRange (pairTable ds ds2 tv) > 5) :
    downUpPair polyArea th ds ds2 tv =
      ⟨initFlags (varData ds tv).vals, initFlags (varData ds2 tv).vals, false, []⟩ := by
  unfold downUpPair
  dsimp only
  rw [if_pos hgap, if_pos hdata, if_neg hpr]

/-! Facts about the classification function. -/

/-- The classification is FAIL exactly above the fail product. -/
theorem classifyFlag_eq_FAIL (th : Thresholds) (area drange : ℚ) :
    classifyFlag th area drange = FAIL ↔ area > drange * th.fail_threshold := by
  unfold classifyFlag FAIL SUSPECT GOOD
  split_ifs with h1 h2
  · simp [h1]
  · constructor
    · intro h; norm_num at h
    · intro h; exact absurd h h1
  · constructor
    · intro h; norm_num at h
    · intro h; exact absurd h h1

/-- The classification is SUSPECT exactly between the two products. -/
theorem classifyFlag_eq_SUSPECT (th : Thresholds) (area drange : ℚ) :
    classifyFlag th area drange = SUSPECT ↔
      ¬ area > drange * th.fail_threshold ∧ area > drange * th.suspect_threshold := by
  unfold classifyFlag FAIL SUSPECT GOOD
  split_ifs with h1 h2
  · constructor
    · intro h; norm_num at h
    · intro h; exact absurd h1 h.1
  · exact ⟨fun _ => ⟨h1, h2⟩, fun _ => rfl⟩
  · constructor
    · intro h; norm_num at h
    · intro h; exact absurd h.2 h2

/-- The classification is GOOD exactly at or below both products. -/
theorem classifyFlag_eq_GOOD (th : Thresholds) (area drange : ℚ) :
    classifyFlag th area drange = GOOD ↔
      ¬ area > drange * th.fail_threshold ∧ ¬ area > drange * th.suspect_threshold := by
  unfold classifyFlag FAIL SUSPECT GOOD
  split_ifs with h1 h2
  · constructor
    · intro h; norm_num at h
    · intro h; exact absurd h1 h.1
  · constructor
    · intro h; norm_num at h
    · intro h; exact absurd h2 h.2
  · exact ⟨fun _ => ⟨h1, h2⟩, fun _ => rfl⟩

/-- The classification always returns one of GOOD, SUSPECT, FAIL. -/
theorem classifyFlag_mem (th : Thresholds) (area drange : ℚ) :
    classifyFlag th area drange = GOOD ∨ classifyFlag th area drange = SUSPECT ∨
      classifyFlag th area drange = FAIL := by
  unfold classifyFlag
  split_ifs
  · exact Or.inr (Or.inr rfl)
  · exact Or.inr (Or.inl rfl)
  · exact Or.inl rfl

/-- Reading a rational list out of bounds gives the fallback. -/
theorem getD_out (l : List ℚ) (i : ℕ) (h : l.length ≤ i) : l.getD i 0 = 0 := by
  rw [List.getD_eq_getElem?_getD, List.getElem?_eq_none h]
  rfl

/-- A flag array written as one non-UNKNOWN flag over the initial array
never reads UNKNOWN anywhere. -/
theorem assign_init_no_unknown (vals : List (Option ℚ)) (f : ℚ) (hf : f ≠ UNKNOWN) :
    ∀ i, (assignFlag (initFlags vals) (nonNanIdx vals) f).getD i 0 ≠ UNKNOWN := by
  intro i
  by_cases hi : i < vals.length
  · rw [assign_init_getD vals f i hi]
    by_cases hs : (vals.getD i none).isSome
    · rw [if_pos hs]; exact hf
    · rw [if_neg hs]; unfold MISSING UNKNOWN; norm_num
  · rw [getD_out _ i (by
      rw [assignFlag_length, initFlags_length]
      exact Nat.le_of_not_lt hi)]
    unfold UNKNOWN; norm_num

/-- The classification never returns UNKNOWN. -/
theorem classifyFlag_ne_UNKNOWN (th : Thresholds) (area drange : ℚ) :
    classifyFlag th area drange ≠ UNKNOWN := by
  rcases classifyFlag_mem th area drange with h | h | h <;> rw [h] <;>
    norm_num [GOOD, SUSPECT, FAIL, UNKNOWN]

/-! The claims. -/

/-- C1: for every validated down/up pair with pressure range above 5 and
data range above the test threshold, both persisted flag arrays carry the
classification flag, and that flag is FAIL exactly when the normalized area
exceeds data_range times fail_threshold, otherwise SUSPECT exactly when it
exceeds data_range times suspect_threshold, otherwise GOOD; all comparisons
strict, ties giving the lower severity. -/
theorem pair_classification_thresholds (polyArea : List (ℚ × ℚ) → ℚ)
    (th : Thresholds) (ds ds2 : Dataset) (tv : String)
    (hgap : ds2.time.headD 0 - ds.time.getLastD 0 < 5)
    (hdata : 0 < countSome (maskedData ds tv) ∧ 0 < countSome (maskedData ds2 tv))
    (hpr : pressureRange (pairTable ds ds2 tv) > 5)
    (hdr : dataRange (pairTable ds ds2 tv) > th.test_threshold) :
    ((downUpPair polyArea th ds ds2 tv).flags1 =
        assignFlag (initFlags (varData ds tv).vals) (nonNanIdx (varData ds tv).vals)
          (classifyFlag th
            (polyArea (polygonPoints (pairTable ds ds2 tv)) / pressureRange (pairTable ds ds2 tv))
            (dataRange (pairTable ds ds2 tv))))
    ∧ ((downUpPair polyArea th ds ds2 tv).flags2 =
        assignFlag (initFlags (varData ds2 tv).vals) (nonNanIdx (varData ds2 tv).vals)
          (classifyFlag th
            (polyArea (polygonPoints (pairTable ds ds2 tv)) / pressureRange (pairTable ds ds2 tv))
            (dataRange (pairTable ds ds2 tv))))
    ∧ (∀ area drange : ℚ,
        (classifyFlag th area drange = FAIL ↔ area > drange * th.fail_threshold)
        ∧ (classifyFlag th area drange = SUSPECT ↔
            ¬ area > drange * th.fail_threshold ∧ area > drange * th.suspect_threshold)
        ∧ (classifyFlag th area drange = GOOD ↔
            ¬ area > drange * th.fail_threshold ∧ ¬ area > drange * th.suspect_threshold)) := by
  refine ⟨?_, ?_, fun area drange =>
    ⟨classifyFlag_eq_FAIL th area drange, classifyFlag_eq_SUSPECT th area drange,
     classifyFlag_eq_GOOD th area drange⟩⟩
  · rw [downUpPair_eq_classified polyArea th ds ds2 tv hgap hdata hpr hdr]
  · rw [downUpPair_eq_classified polyArea th ds ds2 tv hgap hdata hpr hdr]

unseal Rat.sub Rat.add Rat.mul Rat.inv in
/-- Witness for C1 at a concrete validated pair with area 1000. -/
theorem pair_classification_thresholds_witness :
    (negUp.time.headD 0 - negDown.time.getLastD 0 < 5)
    ∧ (0 < countSome (maskedData negDown "conductivity")
        ∧ 0 < countSome (maskedData negUp "conductivity"))
    ∧ (pressureRange (pairTable negDown negUp "conductivity") > 5)
    ∧ (dataRange (pairTable negDown negUp "conductivity") >
        (⟨1, 2, 5⟩ : Thresholds).test_threshold)
    ∧ ((downUpPair bigArea ⟨1, 2, 5⟩ negDown negUp "conductivity").flags1 =
        assignFlag (initFlags (varData negDown "conductivity").vals)
          (nonNanIdx (varData negDown "conductivity").vals)
          (classifyFlag ⟨1, 2, 5⟩
            (bigArea (polygonPoints (pairTable negDown negUp "conductivity")) /
              pressureRange (pairTable negDown negUp "conductivity"))
            (dataRange (pairTable negDown negUp "conductivity")))) :=
  ⟨by decide, by decide, by decide, by decide,
   (pair_classification_thresholds bigArea ⟨1, 2, 5⟩ negDown negUp "conductivity"
      (by decide) (by decide) (by decide) (by decide)).1⟩

/-- C4: a validated down/up pair whose combined pressure range does not
exceed 5 keeps UNKNOWN at every valid-data index of both profiles and never
invokes the polygon area computation. -/
theorem shallow_pair_unknown (polyArea : List (ℚ × ℚ) → ℚ) (th : Thresholds)
    (ds ds2 : Dataset) (tv : String)
    (hgap : ds2.time.headD 0 - ds.time.getLastD 0 < 5)
    (hdata : 0 < countSome (maskedData ds tv) ∧ 0 < countSome (maskedData ds2 tv))
    (hpr : ¬ pressureRange (pairTable ds ds2 tv) > 5) :
    (downUpPair polyArea th ds ds2 tv).polygonInvoked = false
    ∧ (∀ i ∈ nonNanIdx (varData ds tv).vals,
        (downUpPair polyArea th ds ds2 tv).flags1.getD i 0 = UNKNOWN)
    ∧ (∀ i ∈ nonNanIdx (varData ds2 tv).vals,
        (downUpPair polyArea th ds ds2 tv).flags2.getD i 0 = UNKNOWN) := by
  rw [downUpPair_eq_shallow polyArea th ds ds2 tv hgap hdata hpr]
  refine ⟨rfl, ?_, ?_⟩ <;>
  · intro i hi
    obtain ⟨hlt, hs⟩ := (mem_nonNanIdx _ i).mp hi
    dsimp only
    rw [initFlags_getD _ i hlt, if_pos hs]

unseal Rat.sub Rat.add Rat.mul Rat.inv in
/-- Witness for C4 at a concrete shallow pair. -/
theorem shallow_pair_unknown_witness :
    (shallowUp.time.headD 0 - shallowDown.time.getLastD 0 < 5)
    ∧ (0 < countSome (maskedData shallowDown "conductivity")
        ∧ 0 < countSome (maskedData shallowUp "conductivity"))
    ∧ (¬ pressureRange (pairTable shallowDown shallowUp "conductivity") > 5)
    ∧ ((downUpPair zeroArea ⟨100, 2, 5⟩ shallowDown shallowUp "conductivity").polygonInvoked = false
        ∧ (∀ i ∈ nonNanIdx (varData shallowDown "conductivity").vals,
            (downUpPair zeroArea ⟨100, 2, 5⟩ shallowDown shallowUp "conductivity").flags1.getD i 0 = UNKNOWN)
        ∧ (∀ i ∈ nonNanIdx (varData shallowUp "conductivity").vals,
            (downUpPair zeroArea ⟨100, 2, 5⟩ shallowDown shallowUp "conductivity").flags2.getD i 0 = UNKNOWN)) :=
  ⟨by decide, by decide, by decide,
   shallow_pair_unknown zeroArea ⟨100, 2, 5⟩ shallowDown shallowUp "conductivity"
     (by decide) (by decide) (by decide)⟩

/-- C5: a validated down/up pair with pressure range above 5 whose data
range does not exceed the test threshold flags every valid-data index of
both profiles GOOD and computes no polygon geometry. -/
theorem small_data_range_good (polyArea : List (ℚ × ℚ) → ℚ) (th : Thresholds)
    (ds ds2 : Dataset) (tv : String)
    (hgap : ds2.time.headD 0 - ds.time.getLastD 0 < 5)
    (hdata : 0 < countSome (maskedData ds tv) ∧ 0 < countSome (maskedData ds2 tv))
    (hpr : pressureRange (pairTable ds ds2 tv) > 5)
    (hdr : ¬ dataRange (pairTable ds ds2 tv) > th.test_threshold) :
    (downUpPair polyArea th ds ds2 tv).polygonInvoked = false
    ∧ (∀ i ∈ nonNanIdx (varData ds tv).vals,
        (downUpPair polyArea th ds ds2 tv).flags1.getD i 0 = GOOD)
    ∧ (∀ i ∈ nonNanIdx (varData ds2 tv).vals,
        (downUpPair polyArea th ds ds2 tv).flags2.getD i 0 = GOOD) := by
  rw [downUpPair_eq_autoGood polyArea th ds ds2 tv hgap hdata hpr hdr]
  refine ⟨rfl, ?_, ?_⟩ <;>
  · intro i hi
    obtain ⟨hlt, hs⟩ := (mem_nonNanIdx _ i).mp hi
    dsimp only
    rw [assign_init_getD _ _ i hlt, if_pos hs]

unseal Rat.sub Rat.add Rat.mul Rat.inv in
/-- Witness for C5 at a concrete well-mixed pair. -/
theorem small_data_range_good_witness :
    (flatUp.time.headD 0 - flatDown.time.getLastD 0 < 5)
    ∧ (0 < countSome (maskedData flatDown "conductivity")
        ∧ 0 < countSome (maskedData flatUp "conductivity"))
    ∧ (pressureRange (pairTable flatDown flatUp "conductivity") > 5)
    ∧ (¬ dataRange (pairTable flatDown flatUp "conductivity") >
        (⟨100, 2, 5⟩ : Thresholds).test_threshold)
    ∧ ((downUpPair zeroArea ⟨100, 2, 5⟩ flatDown flatUp "conductivity").polygonInvoked = false
        ∧ (∀ i ∈ nonNanIdx (varData flatDown "conductivity").vals,
            (downUpPair zeroArea ⟨100, 2, 5⟩ flatDown flatUp "conductivity").flags1.getD i 0 = GOOD)
        ∧ (∀ i ∈ nonNanIdx (varData flatUp "conductivity").vals,
            (downUpPair zeroArea ⟨100, 2, 5⟩ flatDown flatUp "conductivity").flags2.getD i 0 = GOOD)) :=
  ⟨by decide, by decide, by decide, by decide,
   small_data_range_good zeroArea ⟨100, 2, 5⟩ flatDown flatUp "conductivity"
     (by decide) (by decide) (by decide) (by decide)⟩

/-- C10: whenever a validated pair completes classification, a single flag
from GOOD, SUSPECT, FAIL is written so that each profile's persisted array
is that flag at every non-NaN index and MISSING at every NaN index, and no
UNKNOWN value remains in either array. -/
theorem classified_pair_two_valued_flags (polyArea : List (ℚ × ℚ) → ℚ)
    (th : Thresholds) (ds ds2 : Dataset) (tv : String)
    (hgap : ds2.time.headD 0 - ds.time.getLastD 0 < 5)
    (hdata : 0 < countSome (maskedData ds tv) ∧ 0 < countSome (maskedData ds2 tv))
    (hpr : pressureRange (pairTable ds ds2 tv) > 5) :
    ∃ f, (f = GOOD ∨ f = SUSPECT ∨ f = FAIL)
      ∧ (∀ i, i < (varData ds tv).vals.length →
          (downUpPair polyArea th ds ds2 tv).flags1.getD i 0 =
            if ((varData ds tv).vals.getD i none).isSome then f else MISSING)
      ∧ (∀ i, i < (varData ds2 tv).vals.length →
          (downUpPair polyArea th ds ds2 tv).flags2.getD i 0 =
            if ((varData ds2 tv).vals.getD i none).isSome then f else MISSING)
      ∧ (∀ i, (downUpPair polyArea th ds ds2 tv).flags1.getD i 0 ≠ UNKNOWN)
      ∧ (∀ i, (downUpPair polyArea th ds ds2 tv).flags2.getD i 0 ≠ UNKNOWN) := by
  by_cases hdr : dataRange (pairTable ds ds2 tv) > th.test_threshold
  · refine ⟨classifyFlag th
        (polyArea (polygonPoints (pairTable ds ds2 tv)) / pressureRange (pairTable ds ds2 tv))
        (dataRange (pairTable ds ds2 tv)),
      classifyFlag_mem th _ _, ?_, ?_, ?_, ?_⟩ <;>
      rw [downUpPair_eq_classified polyArea th ds ds2 tv hgap hdata hpr hdr]
    · intro i hi
      exact assign_init_getD _ _ i hi
    · intro i hi
      exact assign_init_getD _ _ i hi
    · exact assign_init_no_unknown _ _ (classifyFlag_ne_UNKNOWN th _ _)
    · exact assign_init_no_unknown _ _ (classifyFlag_ne_UNKNOWN th _ _)
  · refine ⟨GOOD, Or.inl rfl, ?_, ?_, ?_, ?_⟩ <;>
      rw [downUpPair_eq_autoGood polyArea th ds ds2 tv hgap hdata hpr hdr]
    · intro i hi
      exact assign_init_getD _ _ i hi
    · intro i hi
      exact assign_init_getD _ _ i hi
    · exact assign_init_no_unknown _ _ (by unfold GOOD UNKNOWN; norm_num)
    · exact assign_init_no_unknown _ _ (by unfold GOOD UNKNOWN; norm_num)

unseal Rat.sub Rat.add Rat.mul Rat.inv in
/-- Witness for C10 at a concrete classified pair. -/
theorem classified_pair_two_valued_flags_witness :
    (negUp.time.headD 0 - negDown.time.getLastD 0 < 5)
    ∧ (0 < countSome (maskedData negDown "temperature")
        ∧ 0 < countSome (maskedData negUp "temperature"))
    ∧ (pressureRange (pairTable negDown negUp "temperature") > 5)
    ∧ (∃ f, (f = GOOD ∨ f = SUSPECT ∨ f = FAIL)
        ∧ (∀ i, i < (varData negDown "temperature").vals.length →
            (downUpPair bigArea ⟨1, 2, 5⟩ negDown negUp "temperature").flags1.getD i 0 =
              if ((varData negDown "temperature").vals.getD i none).isSome then f else MISSING)
        ∧ (∀ i, i < (varData negUp "temperature").vals.length →
            (downUpPair bigArea ⟨1, 2, 5⟩ negDown negUp "temperature").flags2.getD i 0 =
              if ((varData negUp "temperature").vals.getD i none).isSome then f else MISSING)
        ∧ (∀ i, (downUpPair bigArea ⟨1, 2, 5⟩ negDown negUp "temperature").flags1.getD i 0 ≠ UNKNOWN)
        ∧ (∀ i, (downUpPair bigArea ⟨1, 2, 5⟩ negDown negUp "temperature").flags2.getD i 0 ≠ UNKNOWN)) :=
  ⟨by decide, by decide, by decide,
   classified_pair_two_valued_flags bigArea ⟨1, 2, 5⟩ negDown negUp "temperature"
     (by decide) (by decide) (by decide)⟩

/-- C7: every flag array persisted anywhere in a whole run reads MISSING at
every in-bounds index where the written dataset's measurement variable is
NaN, regardless of the pairing outcome; classification assignments never
overwrite a MISSING entry. -/
theorem saved_flags_missing_at_nan (polyArea : List (ℚ × ℚ) → ℚ)
    (tvs : List String) (deps : List DeploymentInput) (r : SaveRec)
    (hr : r ∈ (runDeployments polyArea tvs deps).saved) (i : ℕ)
    (hi : i < r.vals.length) (hnan : r.vals.getD i none = none) :
    r.flags.getD i 0 = MISSING :=
  savedOK_runDeployments polyArea tvs deps r hr i hi hnan

unseal Rat.sub Rat.add Rat.mul Rat.inv in
/-- Witness for C7 at a concrete run over one up-cast profile with a NaN
sample. -/
theorem saved_flags_missing_at_nan_witness :
    ((⟨0, "conductivity", [some 1, none], [2, 9]⟩ : SaveRec) ∈
        (runDeployments zeroArea testVarnames [⟨some sampleCfg, [some nanUp]⟩]).saved)
    ∧ (1 < ([some 1, none] : List (Option ℚ)).length)
    ∧ (([some 1, none] : List (Option ℚ)).getD 1 none = none)
    ∧ (([2, 9] : List ℚ).getD 1 0 = MISSING) :=
  ⟨by decide, by decide, by decide,
   saved_flags_missing_at_nan zeroArea testVarnames [⟨some sampleCfg, [some nanUp]⟩]
     ⟨0, "conductivity", [some 1, none], [2, 9]⟩ (by decide) 1 (by decide) (by decide)⟩

/-- C6 counterexample: a primary profile with two valid pressure samples
whose first and last valid pressures are equal is not classified up, so the
claim that equal endpoints classify as UP for the primary is false: the
source line 227 tests strictly greater, and the tie falls into the
down-cast branch. -/
theorem primary_orientation_tie_counterexample :
    2 ≤ (validPressures [some 3, some 3]).length
    ∧ (validPressures [some 3, some 3]).headD 0 = (validPressures [some 3, some 3]).getLastD 0
    ∧ firstProfileIsUp [some 3, some 3] = false := by decide

/-- C6 amended: with at least 2 valid pressure samples, the primary profile
is classified up exactly when its first valid pressure is strictly greater
than its last (equal endpoints proceed as a down-cast), and the lookahead
profile is classified down exactly when its first valid pressure is
strictly less than its last (equal endpoints are treated as an up-cast). -/
theorem orientation_classifier_amended (pressure : List (Option ℚ))
    (_hlen : 2 ≤ (validPressures pressure).length) :
    (firstProfileIsUp pressure = true ↔
      (validPressures pressure).headD 0 > (validPressures pressure).getLastD 0)
    ∧ (secondProfileIsDown pressure = true ↔
      (validPressures pressure).headD 0 < (validPressures pressure).getLastD 0) := by
  unfold firstProfileIsUp secondProfileIsDown
  constructor <;> exact decide_eq_true_iff

/-- Witness for the amended C6 at a strictly descending profile. -/
theorem orientation_classifier_amended_witness :
    2 ≤ (validPressures [some 1, some 10]).length
    ∧ ((firstProfileIsUp [some 1, some 10] = true ↔
        (validPressures [some 1, some 10]).headD 0 >
          (validPressures [some 1, some 10]).getLastD 0)
      ∧ (secondProfileIsDown [some 1, some 10] = true ↔
        (validPressures [some 1, some 10]).headD 0 <
          (validPressures [some 1, some 10]).getLastD 0)) :=
  ⟨by decide, orientation_classifier_amended [some 1, some 10] (by decide)⟩

unseal Rat.sub Rat.add Rat.mul Rat.inv in
/-- C8 counterexample: for a validated pair containing a negative pressure
sample, the point list handed to the geometry library still contains the
negative pressure and differs from the polygon built over the spec-clamped
table: the source clamps only the copied pressure column it uses for
pressure_range. -/
theorem polygon_unclamped_counterexample :
    (downUpPair zeroArea ⟨1, 2, 5⟩ negDown negUp "conductivity").polygonInvoked = true
    ∧ ((-1 : ℚ) ∈
        ((downUpPair zeroArea ⟨1, 2, 5⟩ negDown negUp "conductivity").polyPts.map Prod.snd))
    ∧ (downUpPair zeroArea ⟨1, 2, 5⟩ negDown negUp "conductivity").polyPts ≠
        polygonPoints (specClampRows (pairTable negDown negUp "conductivity")) := by decide

/-- C8 amended: negative pressures are clamped to 0 only in the copied
pressure column from which the pressure range is computed; the closed
polygon is constructed from the original, unclamped rows of the combined
table. -/
theorem clamp_only_for_pressure_range (polyArea : List (ℚ × ℚ) → ℚ)
    (th : Thresholds) (ds ds2 : Dataset) (tv : String)
    (hgap : ds2.time.headD 0 - ds.time.getLastD 0 < 5)
    (hdata : 0 < countSome (maskedData ds tv) ∧ 0 < countSome (maskedData ds2 tv))
    (hpr : pressureRange (pairTable ds ds2 tv) > 5)
    (hdr : dataRange (pairTable ds ds2 tv) > th.test_threshold) :
    (downUpPair polyArea th ds ds2 tv).polyPts =
      pairTable ds ds2 tv ++ [(pairTable ds ds2 tv).headD (0, 0)]
    ∧ pressureRange (pairTable ds ds2 tv) =
        listMax (clampPress (pairTable ds ds2 tv)) -
          listMin (clampPress (pairTable ds ds2 tv)) := by
  refine ⟨?_, rfl⟩
  rw [downUpPair_eq_classified polyArea th ds ds2 tv hgap hdata hpr hdr]
  rfl

unseal Rat.sub Rat.add Rat.mul Rat.inv in
/-- Witness for the amended C8 at the pair with a negative pressure. -/
theorem clamp_only_for_pressure_range_witness :
    (negUp.time.headD 0 - negDown.time.getLastD 0 < 5)
    ∧ (0 < countSome (maskedData negDown "conductivity")
        ∧ 0 < countSome (maskedData negUp "conductivity"))
    ∧ (pressureRange (pairTable negDown negUp "conductivity") > 5)
    ∧ (dataRange (pairTable negDown negUp "conductivity") >
        (⟨1, 2, 5⟩ : Thresholds).test_threshold)
    ∧ ((downUpPair zeroArea ⟨1, 2, 5⟩ negDown negUp "conductivity").polyPts =
        pairTable negDown negUp "conductivity" ++
          [(pairTable negDown negUp "conductivity").headD (0, 0)]
      ∧ pressureRange (pairTable negDown negUp "conductivity") =
          listMax (clampPress (pairTable negDown negUp "conductivity")) -
            listMin (clampPress (pairTable negDown negUp "conductivity"))) :=
  ⟨by decide, by decide, by decide, by decide,
   clamp_only_for_pressure_range zeroArea ⟨1, 2, 5⟩ negDown negUp "conductivity"
     (by decide) (by decide) (by decide) (by decide)⟩

unseal Rat.sub Rat.add Rat.mul Rat.inv in
/-- C2 (code-bug evidence): with a down-cast primary whose lookahead file
is unreadable and no previously bound lookahead dataset, the run crashes
with an uncaught UnboundLocalError right after marking the lookahead
consumed (f2skip becomes 1) and without persisting any UNKNOWN flags for
the primary file. -/
theorem lookahead_read_failure_eval :
    (runFiles zeroArea sampleCfg testVarnames [some downA, none]).crashed = true
    ∧ (runFiles zeroArea sampleCfg testVarnames [some downA, none]).f2skip = some 1
    ∧ (runFiles zeroArea sampleCfg testVarnames [some downA, none]).saved = []
    ∧ (runFiles zeroArea sampleCfg testVarnames [some downA, none]).status = 1 := by decide

unseal Rat.sub Rat.add Rat.mul Rat.inv in
/-- C3 (code-bug evidence): in a run whose file 3 is unreadable, the driver
still consumes file 3 as the second member of a pairing (against a stale
lookahead dataset left over from the earlier pair): flag arrays are written
to index 3, the file is skipped as a primary, and the run does not crash. -/
theorem failed_file_consumed_eval :
    c3files.getD 3 none = none
    ∧ (runFiles zeroArea sampleCfg testVarnames c3files).crashed = false
    ∧ (runFiles zeroArea sampleCfg testVarnames c3files).saved.map
        (fun r => r.fileIdx) = [0, 1, 0, 1, 2, 3, 2, 3, 4, 4] := by decide

unseal Rat.sub Rat.add Rat.mul Rat.inv in
/-- C9 (code-bug evidence): a present configuration that is merely missing
the conductivity entry raises an uncaught KeyError at the unguarded config
lookup, aborting the whole run: only the first of the two deployments is
ever attempted. -/
theorem config_keyerror_aborts_run_eval :
    (runDeployments zeroArea testVarnames
        [⟨some badCfg, [some downA]⟩, ⟨some sampleCfg, [some upE]⟩]).crashed = true
    ∧ (runDeployments zeroArea testVarnames
        [⟨some badCfg, [some downA]⟩, ⟨some sampleCfg, [some upE]⟩]).depsAttempted = 1 := by
  decide

end CtdHysteresis
